import Mathlib

/-!
Verification of the authentication/authorization core of the Wood ERP backend
(`backend/routers/auth.py`, `backend/main.py`, `backend/dependencies.py`,
`backend/security.py`, `backend/models.py`).

Python strings are modelled as lists of characters (`Chars`), timestamps as
natural numbers (seconds of UTC time), nullable columns as `Option`, and the
relevant database tables as Lean lists inside an explicit `AuthDB` state.
External collaborators (the SHA-256 hex digest, the bcrypt verifier, the
random salt/token generators, the client IP) enter as explicit parameters.
Each endpoint is a pure function from the request data and the database state
to a result and the successor state; an ORM "query ... .first() then mutate
the row" pattern is modelled by `List.find?` with the query predicate followed
by `updateFirst` with the same predicate.
-/

set_option autoImplicit false

namespace ERPAuth

/-- Python `str` values carried by the auth core. -/
abbrev Chars := List Char

/-- Model of Python `s.split(sep, 1)` followed by a two-variable unpacking:
`some (before, after)` splits at the first occurrence of `c`; `none` when `c`
is absent (the unpacking then raises, which each caller turns into `False`). -/
def splitFirst (c : Char) : Chars → Option (Chars × Chars)
  | [] => none
  | x :: xs =>
    if x = c then some ([], xs)
    else
      match splitFirst c xs with
      | some (l, r) => some (x :: l, r)
      | none => none

/-- Replace the first element satisfying `p` by its image under `f`; models a
SQLAlchemy "find the first matching row, then mutate that row" sequence. -/
def updateFirst {α : Type} (p : α → Bool) (f : α → α) : List α → List α
  | [] => []
  | x :: xs => if p x then f x :: xs else x :: updateFirst p f xs

/-- Python `s.strip()` (whitespace removed from both ends). -/
def pstrip (s : Chars) : Chars :=
  ((s.dropWhile Char.isWhitespace).reverse.dropWhile Char.isWhitespace).reverse

/-- `auth.py hash_password(password, salt)`: the stored form is
`salt + "$" + sha256_hexdigest(salt + password)`.  The Python function returns
the pair `(stored, salt)`; only the stored form matters to callers, and the
salt (`secrets.token_hex(16)`) and the SHA-256 hex digest are external inputs,
passed here as parameters. -/
def hash_password (sha256 : Chars → Chars) (password salt : Chars) : Chars :=
  salt ++ '$' :: sha256 (salt ++ password)

/-- `auth.py verify_password(password, stored_hash)`: split the stored form at
the first `$`, re-hash, and compare.  A stored form without `$` raises inside
the `try`, which returns `False`. -/
def verify_password (sha256 : Chars → Chars) (password stored_hash : Chars) : Bool :=
  match splitFirst '$' stored_hash with
  | none => false
  | some (salt, hash_value) => sha256 (salt ++ password) == hash_value

namespace Security

/-- `security.py is_bcrypt_hash`: a non-empty stored form starting with `"$2"`. -/
def is_bcrypt_hash : Chars → Bool
  | '$' :: '2' :: _ => true
  | _ => false

/-- `security.py verify_password(password, stored_hash)`: empty stored form is
rejected; a non-bcrypt stored form goes through the legacy salted-SHA-256
path; a bcrypt stored form is checked by the external `passlib` verifier,
passed as the parameter `bcryptVerify`. -/
def verify_password (sha256 : Chars → Chars) (bcryptVerify : Chars → Chars → Bool)
    (password stored_hash : Chars) : Bool :=
  if stored_hash.isEmpty then false
  else if ! is_bcrypt_hash stored_hash then
    match splitFirst '$' stored_hash with
    | none => false
    | some (salt, hash_value) => sha256 (salt ++ password) == hash_value
  else bcryptVerify password stored_hash

end Security

/-- `models.Permission` (fields the auth core reads). -/
structure Permission where
  id : Nat
  name : Chars
  code : Chars
  module : Chars
  deriving DecidableEq

/-- `models.Role` (fields the auth core reads), with its permission rows. -/
structure Role where
  id : Nat
  name : Chars
  is_system : Bool
  is_active : Bool
  permissions : List Permission
  deriving DecidableEq

/-- `models.User` (fields the auth core reads), with its role rows. -/
structure User where
  id : Nat
  username : Chars
  email : Chars
  password_hash : Chars
  is_active : Bool
  is_superuser : Bool
  last_login : Option Nat
  failed_login_attempts : Nat
  locked_until : Option Nat
  password_changed_at : Option Nat
  must_change_password : Bool
  roles : List Role
  deriving DecidableEq

/-- `models.UserSession` (fields the auth core reads; the surrogate `id`
column, used only by the unmodelled `DELETE /sessions/{session_id}` endpoint,
is omitted). -/
structure UserSession where
  user_id : Nat
  session_token : Chars
  is_active : Bool
  expires_at : Nat
  last_activity : Nat
  deriving DecidableEq

/-- `models.PasswordResetToken` (fields the auth core reads). -/
structure PasswordResetToken where
  user_id : Nat
  token_hash : Chars
  expires_at : Nat
  used_at : Option Nat
  request_ip : Option Chars
  deriving DecidableEq

/-- `models.AuditLog` (fields written by the auth core). -/
structure AuditLogEntry where
  user_id : Option Nat
  action : String
  module : String
  status : String
  error_message : Option String
  deriving DecidableEq

/-- The persistent state the auth core reads and writes. -/
structure AuthDB where
  users : List User
  sessions : List UserSession
  reset_tokens : List PasswordResetToken
  audit_logs : List AuditLogEntry
  deriving DecidableEq

/-- `auth.py log_audit` followed by the caller's commit: append one entry. -/
def log_audit (db : AuthDB) (user_id : Option Nat) (action module status : String)
    (error_message : Option String) : AuthDB :=
  { db with audit_logs := db.audit_logs ++
      [{ user_id := user_id, action := action, module := module,
         status := status, error_message := error_message }] }

/-- `auth.py login`: the user-lookup filter
`(User.username == login_data.username) | (User.email == login_data.username)`. -/
def loginFilter (q : Chars) (u : User) : Bool :=
  u.username == q || u.email == q

/-- `auth.py login`: `user.locked_until and user.locked_until > now_utc`. -/
def lockedActive (locked_until : Option Nat) (now : Nat) : Bool :=
  match locked_until with
  | some t => now < t
  | none => false

/-- Body of `schemas.LoginRequest`. -/
structure LoginRequest where
  username : Chars
  password : Chars
  remember_me : Bool
  deriving DecidableEq

/-- Outcome of `POST /api/auth/login`. -/
inductive LoginResult where
  /-- 401 "Invalid credentials" (unknown user or wrong password) -/
  | invalidCredentials
  /-- 403 "Account is temporarily locked" -/
  | accountLocked
  /-- 403 "Account is disabled" -/
  | accountDisabled
  /-- 200 with the session token and its expiry -/
  | success (access_token : Chars) (expires_at : Nat)
  deriving DecidableEq

/-- `auth.py login`.  `new_token` stands for `generate_session_token()`;
`now` is the per-request `utcnow()` snapshot.  On the locked / disabled
branches the handler raises before any mutation, so the state is unchanged;
on the unknown-user and wrong-password branches the audit row (and, for a
wrong password, the counter/lock update) is committed before the 401. -/
def login (sha256 : Chars → Chars) (db : AuthDB) (req : LoginRequest) (now : Nat)
    (new_token : Chars) : LoginResult × AuthDB :=
  match db.users.find? (loginFilter req.username) with
  | none =>
      (.invalidCredentials, log_audit db none "login" "auth" "failed" (some "User not found"))
  | some user =>
      if lockedActive user.locked_until now then
        (.accountLocked, db)
      else if ! user.is_active then
        (.accountDisabled, db)
      else if ! verify_password sha256 req.password user.password_hash then
        let attempts := user.failed_login_attempts + 1
        let user' := { user with
          failed_login_attempts := attempts,
          locked_until := if 5 ≤ attempts then some (now + 15 * 60) else user.locked_until }
        let db' := { db with users := updateFirst (loginFilter req.username) (fun _ => user') db.users }
        (.invalidCredentials, log_audit db' (some user.id) "login" "auth" "failed" (some "Invalid password"))
      else
        let user' := { user with
          failed_login_attempts := 0, locked_until := none, last_login := some now }
        let expires_at := now + (if req.remember_me then 7 else 1) * 86400
        let sess : UserSession :=
          { user_id := user.id, session_token := new_token, is_active := true,
            expires_at := expires_at, last_activity := now }
        let db' := { db with
          users := updateFirst (loginFilter req.username) (fun _ => user') db.users,
          sessions := db.sessions ++ [sess] }
        (.success new_token expires_at, log_audit db' (some user.id) "login" "auth" "success" none)

/-- Session filter used by `logout`, `logout-all`, `change-password`,
`GET /sessions` and `DELETE /sessions/{id}`: token match and `is_active`
only — no expiry condition. -/
def activeSessionFilter (token : Chars) (s : UserSession) : Bool :=
  s.session_token == token && s.is_active

/-- Session filter used by the authorization middleware, `GET /me`,
`POST /verify` and `dependencies.get_current_user`: token match,
`is_active`, and `expires_at > now`. -/
def validSessionFilter (token : Chars) (now : Nat) (s : UserSession) : Bool :=
  s.session_token == token && s.is_active && decide (now < s.expires_at)

/-- Outcome of `POST /api/auth/logout-all`. -/
inductive LogoutAllResult where
  /-- 401 "Invalid session" -/
  | invalidSession
  /-- 200 "All sessions invalidated", for the given user -/
  | success (user_id : Nat)
  deriving DecidableEq

/-- `auth.py logout_all_sessions`: resolve the caller's session by token and
`is_active`, then `UPDATE user_sessions SET is_active = false WHERE user_id = ?`. -/
def logout_all_sessions (db : AuthDB) (token : Chars) : LogoutAllResult × AuthDB :=
  match db.sessions.find? (activeSessionFilter token) with
  | none => (.invalidSession, db)
  | some sess =>
      let sessions' := db.sessions.map (fun s =>
        if s.user_id == sess.user_id then { s with is_active := false } else s)
      let db' := { db with sessions := sessions' }
      (.success sess.user_id, log_audit db' (some sess.user_id) "logout_all" "auth" "success" none)

/-- Outcome of `POST /api/auth/change-password`. -/
inductive ChangePasswordResult where
  /-- 401 "Not authenticated" -/
  | notAuthenticated
  /-- 401 "User not found" -/
  | userNotFound
  /-- 400 "Current password is incorrect" -/
  | wrongCurrentPassword
  /-- 400 "Password must be at least 8 characters" -/
  | passwordTooShort
  /-- 200 "Password changed successfully" -/
  | success
  deriving DecidableEq

/-- `auth.py change_password`.  The session lookup uses `activeSessionFilter`
(no expiry condition, exactly as in the source); `new_salt` stands for the
`secrets.token_hex(16)` drawn inside `hash_password`. -/
def change_password (sha256 : Chars → Chars) (db : AuthDB)
    (token current_password new_password : Chars) (now : Nat) (new_salt : Chars) :
    ChangePasswordResult × AuthDB :=
  match db.sessions.find? (activeSessionFilter token) with
  | none => (.notAuthenticated, db)
  | some sess =>
      match db.users.find? (fun u => u.id == sess.user_id) with
      | none => (.userNotFound, db)
      | some user =>
          if ! verify_password sha256 current_password user.password_hash then
            (.wrongCurrentPassword, db)
          else if new_password.length < 8 then
            (.passwordTooShort, db)
          else
            let user' := { user with
              password_hash := hash_password sha256 new_password new_salt,
              password_changed_at := some now,
              must_change_password := false }
            let db' := { db with
              users := updateFirst (fun u => u.id == sess.user_id) (fun _ => user') db.users }
            (.success, log_audit db' (some user.id) "change_password" "auth" "success" none)

/-- The generic body of `POST /api/auth/forgot-password`. -/
def forgotGenericMessage : String := "If that email exists, a reset link has been sent."

/-- `auth.py forgot_password`.  `raw_token` stands for
`secrets.token_urlsafe(32)`; the mail dispatch is external and its failure is
swallowed, so it does not appear in the state.  Every non-error path returns
the same generic body. -/
def forgot_password (sha256 : Chars → Chars) (db : AuthDB) (email : Chars) (now : Nat)
    (raw_token : Chars) (client_ip : Option Chars) : String × AuthDB :=
  let e := (pstrip email).map Char.toLower
  match db.users.find? (fun u => u.email == e) with
  | none => (forgotGenericMessage, db)
  | some user =>
      if ! user.is_active then (forgotGenericMessage, db)
      else
        let prt : PasswordResetToken :=
          { user_id := user.id, token_hash := sha256 raw_token, expires_at := now + 60 * 60,
            used_at := none, request_ip := client_ip }
        (forgotGenericMessage, { db with reset_tokens := db.reset_tokens ++ [prt] })

/-- Outcome of `POST /api/auth/reset-password`. -/
inductive ResetPasswordResult where
  /-- 400 "Invalid token" (empty token after strip) -/
  | invalidToken
  /-- 400 "Password must be at least 8 characters" -/
  | passwordTooShort
  /-- 400 "Token is invalid or expired" (not found, used, or expired) -/
  | tokenInvalidOrExpired
  /-- 400 "User not found or disabled" -/
  | userNotFoundOrDisabled
  /-- 200 "Password reset successfully" -/
  | success
  deriving DecidableEq

/-- Reset-token lookup filter: `token_hash == sha256_hexdigest(raw secret)`. -/
def resetTokenFilter (h : Chars) (t : PasswordResetToken) : Bool :=
  t.token_hash == h

/-- `auth.py reset_password`.  The source checks
`(not prt) or (prt.used_at is not None) or (prt.expires_at <= now)` in one
condition and answers all three the same way; success updates the user's
password and marks the token used in the same commit.  `new_salt` stands for
the salt drawn inside `hash_password`. -/
def reset_password (sha256 : Chars → Chars) (db : AuthDB) (token new_password : Chars)
    (now : Nat) (new_salt : Chars) : ResetPasswordResult × AuthDB :=
  let token := pstrip token
  if token.isEmpty then (.invalidToken, db)
  else if new_password.length < 8 then (.passwordTooShort, db)
  else
    let token_hash := sha256 token
    match db.reset_tokens.find? (resetTokenFilter token_hash) with
    | none => (.tokenInvalidOrExpired, db)
    | some prt =>
        if prt.used_at.isSome then (.tokenInvalidOrExpired, db)
        else if prt.expires_at ≤ now then (.tokenInvalidOrExpired, db)
        else
          match db.users.find? (fun u => u.id == prt.user_id) with
          | none => (.userNotFoundOrDisabled, db)
          | some user =>
              if ! user.is_active then (.userNotFoundOrDisabled, db)
              else
                let user' := { user with
                  password_hash := hash_password sha256 new_password new_salt,
                  must_change_password := false,
                  password_changed_at := some now }
                let tokens' := updateFirst (resetTokenFilter token_hash)
                  (fun t => { t with used_at := some now }) db.reset_tokens
                let db' := { db with
                  users := updateFirst (fun u => u.id == prt.user_id) (fun _ => user') db.users,
                  reset_tokens := tokens' }
                (.success, db')

/-- `auth.py verify_token` (`POST /api/auth/verify`): `(valid, expires_at?)`. -/
def verify_token (db : AuthDB) (token : Chars) (now : Nat) : Bool × Option Nat :=
  if token.isEmpty then (false, none)
  else
    match db.sessions.find? (validSessionFilter token now) with
    | some s => (true, some s.expires_at)
    | none => (false, none)

/-- `dependencies.get_user_permissions(user, db)`: a superuser gets every code
in the permission catalog; otherwise the codes of the user's active roles are
unioned, inactive roles contributing nothing. -/
def get_user_permissions (user : User) (catalog : List Permission) : Finset Chars :=
  if user.is_superuser then (catalog.map Permission.code).toFinset
  else user.roles.foldl
    (fun acc r => if r.is_active then acc ∪ (r.permissions.map Permission.code).toFinset else acc) ∅

/-- HTTP methods the middleware distinguishes. -/
inductive Method where
  | GET
  | POST
  | PUT
  | DELETE
  | OPTIONS
  | PATCH
  deriving DecidableEq

/-- The parts of a FastAPI `Request` the auth core reads.  `authorization` is
`request.headers.get("Authorization", "")` (empty when the header is absent);
`cookies` is the request's cookie jar. -/
structure HttpRequest where
  path : Chars
  method : Method
  authorization : Chars
  cookies : List (Chars × Chars)
  deriving DecidableEq

/-- The characters of the `"Bearer "` marker. -/
def bearerMarker : Chars := "Bearer ".toList

/-- `main.py _get_bearer_token`: the bearer token from the `Authorization`
header, or `none` — the middleware consults no cookie. -/
def _get_bearer_token (req : HttpRequest) : Option Chars :=
  if bearerMarker.isPrefixOf req.authorization then some (req.authorization.drop 7)
  else none

/-- Python `request.cookies.get(k)`. -/
def cookies_get (cookies : List (Chars × Chars)) (k : Chars) : Option Chars :=
  (cookies.find? (fun kv => kv.1 == k)).map Prod.snd

/-- The name of the session cookie read by `dependencies.py`. -/
def sessionCookieName : Chars := "session_token".toList

/-- `dependencies.get_token_from_request`: the bearer token from the
`Authorization` header, falling back to the `session_token` cookie. -/
def get_token_from_request (req : HttpRequest) : Option Chars :=
  if bearerMarker.isPrefixOf req.authorization then some (req.authorization.drop 7)
  else cookies_get req.cookies sessionCookieName

/-- `main.py PUBLIC_PATH_PREFIXES`. -/
def PUBLIC_PATH_PREFIXES : List Chars :=
  [ "/api/auth/login".toList, "/api/auth/verify".toList, "/api/health".toList,
    "/api/auth/forgot-password".toList, "/api/auth/reset-password".toList,
    "/api/admin/bootstrap-owner".toList ]

/-- `main.py MODULE_PREFIX_MAP` (ordered as the Python dict literal). -/
def MODULE_PREFIX_MAP : List (Chars × Chars) :=
  [ ("/api/products".toList, "products".toList),
    ("/api/inventory".toList, "inventory".toList),
    ("/api/sales-orders".toList, "sales_orders".toList),
    ("/api/customers".toList, "customers".toList),
    ("/api/quotes".toList, "quotes".toList),
    ("/api/suppliers".toList, "suppliers".toList),
    ("/api/purchasing".toList, "purchasing".toList),
    ("/api/invoices".toList, "invoicing".toList),
    ("/api/payments".toList, "payments".toList),
    ("/api/work-orders".toList, "work_orders".toList),
    ("/api/expenses".toList, "expenses".toList),
    ("/api/projects".toList, "projects".toList),
    ("/api/support-tickets".toList, "support_tickets".toList),
    ("/api/leads".toList, "leads".toList),
    ("/api/warehousing".toList, "warehousing".toList),
    ("/api/manufacturing".toList, "manufacturing".toList),
    ("/api/quality".toList, "quality".toList),
    ("/api/shipping".toList, "shipping".toList),
    ("/api/returns".toList, "returns".toList),
    ("/api/time-attendance".toList, "time_attendance".toList),
    ("/api/hr".toList, "hr".toList),
    ("/api/assets".toList, "assets".toList),
    ("/api/reporting".toList, "reporting".toList),
    ("/api/accounting".toList, "accounting".toList),
    ("/api/production".toList, "production".toList),
    ("/api/documents".toList, "documents".toList),
    ("/api/payroll".toList, "payroll".toList),
    ("/api/pos".toList, "pos".toList),
    ("/api/tooling".toList, "tooling".toList),
    ("/api/portal".toList, "portal".toList),
    ("/api/settings".toList, "settings".toList),
    ("/api/notifications".toList, "notifications".toList),
    ("/api/backup".toList, "backup".toList),
    ("/api/import".toList, "import".toList) ]

/-- `main.py _permission_from_method`. -/
def _permission_from_method : Method → Option Chars
  | .GET => some "view".toList
  | .POST => some "create".toList
  | .PUT => some "update".toList
  | .DELETE => some "delete".toList
  | _ => none

/-- `main.py _required_permission_for_path`: admin sub-resources map to
dedicated codes; otherwise the first matching module path-pattern combined
with the method action as `module.action`. -/
def _required_permission_for_path (path : Chars) (method : Method) : Option Chars :=
  if ("/api/admin/users".toList).isPrefixOf path then some "admin.manage_users".toList
  else if ("/api/admin/roles".toList).isPrefixOf path
      || ("/api/admin/permissions".toList).isPrefixOf path then
    some "admin.manage_roles".toList
  else if ("/api/admin/audit-logs".toList).isPrefixOf path then some "admin.view_audit".toList
  else if ("/api/admin/settings".toList).isPrefixOf path then some "settings.manage".toList
  else
    match _permission_from_method method with
    | none => none
    | some action =>
        match MODULE_PREFIX_MAP.find? (fun pm => pm.1.isPrefixOf path) with
        | some pm => some (pm.2 ++ '.' :: action)
        | none => none

/-- The permission set the middleware computes inline for a non-superuser
(`main.py authz_middleware`, the loop over `user.roles`): codes of active
roles only. -/
def middlewarePermSet (user : User) : Finset Chars :=
  user.roles.foldl
    (fun acc r => if r.is_active then acc ∪ (r.permissions.map Permission.code).toFinset else acc) ∅

/-- Terminal outcome of `main.py authz_middleware` for one request.
`allowed` covers every `call_next` continuation (non-API path, CORS
preflight, public path, or an authorized request). -/
inductive AuthzOutcome where
  | allowed
  | deny401 (detail : String)
  | deny403 (detail : String)
  deriving DecidableEq

/-- `main.py authz_middleware`: public allow-list, bearer-token extraction
(header only), session validation including expiry, active-user lookup, and
the path/method permission check (skipped entirely for superusers). -/
def authz_middleware (db : AuthDB) (req : HttpRequest) (now : Nat) : AuthzOutcome :=
  if ! ("/api/".toList).isPrefixOf req.path then .allowed
  else if req.method = .OPTIONS then .allowed
  else if PUBLIC_PATH_PREFIXES.any (fun p => p.isPrefixOf req.path) then .allowed
  else
    match _get_bearer_token req with
    | none => .deny401 "Not authenticated"
    | some token =>
        if token.isEmpty then .deny401 "Not authenticated"
        else
          match db.sessions.find? (validSessionFilter token now) with
          | none => .deny401 "Session expired or invalid"
          | some sess =>
              match db.users.find? (fun u => u.id == sess.user_id && u.is_active) with
              | none => .deny401 "User not found or disabled"
              | some user =>
                  match _required_permission_for_path req.path req.method with
                  | none => .allowed
                  | some required =>
                      if user.is_superuser then .allowed
                      else if required ∈ middlewarePermSet user then .allowed
                      else .deny403 ("Permission denied: " ++ String.mk required)

/-! ### Concrete sample data for witnesses and counterexamples -/

/-- A concrete instantiation of the external SHA-256 hex digest.  The digest
enters the model as an opaque parameter; the identity function is a legal
(and injective) instantiation for evaluating the model on closed inputs. -/
def sampleSha : Chars → Chars := fun s => s

/-- A user whose stored password hash is the stored form for
`"oldpassword1"` with salt `"ab"`. -/
def sampleUser : User :=
  { id := 1, username := "alice".toList, email := "alice@example.com".toList,
    password_hash := hash_password sampleSha "oldpassword1".toList "ab".toList,
    is_active := true, is_superuser := false, last_login := none,
    failed_login_attempts := 0, locked_until := none, password_changed_at := none,
    must_change_password := false, roles := [] }

/-- An `is_active` session of `sampleUser` with `expires_at = 100`. -/
def sampleSession : UserSession :=
  { user_id := 1, session_token := "tok1".toList, is_active := true,
    expires_at := 100, last_activity := 0 }

/-- A database holding exactly `sampleUser` and `sampleSession`. -/
def sampleDB : AuthDB :=
  { users := [sampleUser], sessions := [sampleSession], reset_tokens := [], audit_logs := [] }

/-- `sampleUser`, locked until time 1000. -/
def sampleLockedUser : User :=
  { sampleUser with locked_until := some 1000, failed_login_attempts := 5 }

/-- A database holding only the locked user. -/
def sampleLockedDB : AuthDB :=
  { users := [sampleLockedUser], sessions := [], reset_tokens := [], audit_logs := [] }

/-- `sampleDB` extended with an unused reset token for `sampleUser`
(raw secret `"raw"`, hashed by `sampleSha`), expiring at time 50. -/
def sampleResetDB : AuthDB :=
  { sampleDB with reset_tokens :=
      [{ user_id := 1, token_hash := sampleSha "raw".toList, expires_at := 50,
         used_at := none, request_ip := none }] }

/-- A protected request carrying the bearer token of `sampleSession`. -/
def sampleBearerReq : HttpRequest :=
  { path := "/api/products".toList, method := .GET,
    authorization := "Bearer tok1".toList, cookies := [] }

/-- A protected request with no `Authorization` header but with the session
token in the `session_token` cookie. -/
def sampleCookieReq : HttpRequest :=
  { path := "/api/products".toList, method := .GET,
    authorization := "".toList, cookies := [(sessionCookieName, "tok1".toList)] }

/-! ### Helper lemmas about the list-level building blocks -/

theorem find?_congr {α : Type} {p q : α → Bool} (l : List α)
    (h : ∀ x ∈ l, p x = q x) : l.find? p = l.find? q := by
  induction l with
  | nil => rfl
  | cons a t ih =>
    have ha : p a = q a := h a (List.mem_cons_self a t)
    have ht : ∀ x ∈ t, p x = q x := fun x hx => h x (List.mem_cons_of_mem a hx)
    cases hqa : q a with
    | true =>
      rw [List.find?_cons_of_pos _ (ha.trans hqa), List.find?_cons_of_pos _ hqa]
    | false =>
      rw [List.find?_cons_of_neg, List.find?_cons_of_neg, ih ht]
      · simp [hqa]
      · simp [ha.trans hqa]

theorem updateFirst_congr {α : Type} {p q : α → Bool} (f : α → α) (l : List α)
    (h : ∀ x ∈ l, p x = q x) : updateFirst p f l = updateFirst q f l := by
  induction l with
  | nil => rfl
  | cons a t ih =>
    have ha : p a = q a := h a (List.mem_cons_self a t)
    have ht : ∀ x ∈ t, p x = q x := fun x hx => h x (List.mem_cons_of_mem a hx)
    simp only [updateFirst, ha, ih ht]

/-- Mutating the first row found by a query leaves it the row the same query
finds, as long as the mutation preserves the query predicate. -/
theorem find?_updateFirst {α : Type} {p : α → Bool} (f : α → α) {l : List α} {x : α}
    (hfind : l.find? p = some x) (hpf : p (f x) = true) :
    (updateFirst p f l).find? p = some (f x) := by
  induction l with
  | nil => simp [List.find?] at hfind
  | cons a t ih =>
    cases hpa : p a with
    | true =>
      rw [List.find?_cons_of_pos _ hpa] at hfind
      injection hfind with hx
      subst hx
      simp only [updateFirst, hpa, if_true]
      exact List.find?_cons_of_pos _ hpf
    | false =>
      rw [List.find?_cons_of_neg _ (by simp [hpa])] at hfind
      simp only [updateFirst, hpa, Bool.false_eq_true, if_false]
      rw [List.find?_cons_of_neg _ (by simp [hpa])]
      exact ih hfind

theorem splitFirst_append {c : Char} (salt rest : Chars) (h : c ∉ salt) :
    splitFirst c (salt ++ c :: rest) = some (salt, rest) := by
  induction salt with
  | nil => simp [splitFirst]
  | cons a t ih =>
    have hac : ¬ a = c := fun e => h (by simp [e])
    have ht : c ∉ t := fun hm => h (List.mem_cons_of_mem a hm)
    simp [splitFirst, hac, ih ht]

/-- Membership in the role-permission fold shared by
`dependencies.get_user_permissions` and the middleware's inline loop. -/
theorem mem_permset_foldl (c : Chars) (roles : List Role) (init : Finset Chars) :
    (c ∈ roles.foldl
        (fun acc r => if r.is_active then acc ∪ (r.permissions.map Permission.code).toFinset else acc)
        init)
      ↔ c ∈ init ∨ ∃ r, r ∈ roles ∧ r.is_active = true ∧ c ∈ r.permissions.map Permission.code := by
  induction roles generalizing init with
  | nil => simp
  | cons r rs ih =>
    rw [List.foldl_cons, ih]
    cases hra : r.is_active with
    | true =>
      simp only [hra, if_true, Finset.mem_union, List.mem_toFinset, List.mem_cons]
      constructor
      · rintro (⟨h1 | h1⟩ | ⟨x, hx, h2, h3⟩)
        · exact Or.inl h1
        · exact Or.inr ⟨r, Or.inl rfl, hra, h1⟩
        · exact Or.inr ⟨x, Or.inr hx, h2, h3⟩
      · rintro (h1 | ⟨x, hx | hx, h2, h3⟩)
        · exact Or.inl (Or.inl h1)
        · exact Or.inl (Or.inr (hx ▸ h3))
        · exact Or.inr ⟨x, hx, h2, h3⟩
    | false =>
      simp only [hra, Bool.false_eq_true, if_false, List.mem_cons]
      constructor
      · rintro (h1 | ⟨x, hx, h2, h3⟩)
        · exact Or.inl h1
        · exact Or.inr ⟨x, Or.inr hx, h2, h3⟩
      · rintro (h1 | ⟨x, hx | hx, h2, h3⟩)
        · exact Or.inl h1
        · rw [hx] at h2; rw [h2] at hra; cases hra
        · exact Or.inr ⟨x, hx, h2, h3⟩

/-- A stored form whose first character is not `$` is not a bcrypt hash. -/
theorem is_bcrypt_hash_cons_of_ne {c : Char} (rest : Chars) (h : c ≠ '$') :
    Security.is_bcrypt_hash (c :: rest) = false := by
  unfold Security.is_bcrypt_hash
  split
  · simp_all
  · rfl

/-- When every session carrying the token is already expired, the
expiry-checking lookup finds nothing. -/
theorem find?_validSessionFilter_none (sessions : List UserSession) (t : Chars) (now : Nat)
    (h : ∀ s ∈ sessions, s.session_token = t → s.expires_at ≤ now) :
    sessions.find? (validSessionFilter t now) = none := by
  rw [List.find?_eq_none]
  intro s hs
  simp only [validSessionFilter, Bool.and_eq_true, beq_iff_eq, decide_eq_true_eq]
  rintro ⟨⟨hst, _⟩, hlt⟩
  exact Nat.not_lt.mpr (h s hs hst) hlt

/-- The first branch of `forgot_password` never varies: every non-error path
returns the same generic body. -/
theorem forgot_password_returns_generic (sha256 : Chars → Chars) (db : AuthDB) (email : Chars)
    (now : Nat) (raw_token : Chars) (client_ip : Option Chars) :
    (forgot_password sha256 db email now raw_token client_ip).1 = forgotGenericMessage := by
  cases h : db.users.find? (fun u => u.email == (pstrip email).map Char.toLower) with
  | none => simp [forgot_password, h]
  | some user => cases hu : user.is_active <;> simp [forgot_password, h, hu]

/-! ### Claim theorems -/

/-- C5: for every pair of forgot-password requests — one for an email with no
registered active account, one for an email with a real active account — the
response bodies are identical (the same generic confirmation message). -/
theorem c5_forgot_password_uniform_response
    (sha256 : Chars → Chars) (db1 db2 : AuthDB) (e1 e2 : Chars)
    (now1 now2 : Nat) (r1 r2 : Chars) (ip1 ip2 : Option Chars)
    (_h1 : ∀ u ∈ db1.users, u.email = (pstrip e1).map Char.toLower → u.is_active = false)
    (_h2 : ∃ u, u ∈ db2.users ∧ u.email = (pstrip e2).map Char.toLower ∧ u.is_active = true) :
    (forgot_password sha256 db1 e1 now1 r1 ip1).1
      = (forgot_password sha256 db2 e2 now2 r2 ip2).1 := by
  rw [forgot_password_returns_generic, forgot_password_returns_generic]

/-- C5 witness: the theorem applied to an unregistered email against an empty
user table and to `sampleUser`'s email against `sampleDB`. -/
theorem c5_witness :
    (forgot_password sampleSha
        { users := [], sessions := [], reset_tokens := [], audit_logs := [] }
        "bob@example.com".toList 1 "r1".toList none).1
      = (forgot_password sampleSha sampleDB "alice@example.com".toList 2 "r2".toList none).1 :=
  c5_forgot_password_uniform_response sampleSha
    { users := [], sessions := [], reset_tokens := [], audit_logs := [] } sampleDB
    "bob@example.com".toList "alice@example.com".toList 1 2 "r1".toList "r2".toList none none
    (by intro u hu; cases hu) ⟨sampleUser, by decide⟩

/-- C6: permission resolution returns the whole catalog for a superuser
regardless of role assignments; for a non-superuser it returns exactly the
union of the permission codes of the active roles (inactive roles contribute
nothing), and for a non-superuser with no roles it returns the empty set. -/
theorem c6_permission_resolution (user : User) (catalog : List Permission) :
    (user.is_superuser = true →
      ∀ rs : List Role,
        get_user_permissions { user with roles := rs } catalog
          = (catalog.map Permission.code).toFinset) ∧
    (user.is_superuser = false →
      ∀ c : Chars,
        c ∈ get_user_permissions user catalog
          ↔ ∃ r, r ∈ user.roles ∧ r.is_active = true ∧ c ∈ r.permissions.map Permission.code) ∧
    (user.is_superuser = false → user.roles = [] →
      get_user_permissions user catalog = ∅) := by
  refine ⟨fun hs rs => ?_, fun hs c => ?_, fun hs hr => ?_⟩
  · simp [get_user_permissions, hs]
  · rw [get_user_permissions, if_neg (by simp [hs]), mem_permset_foldl]
    simp
  · simp [get_user_permissions, hs, hr]

/-- C6 witness: the theorem applied to a concrete superuser with no roles and
a two-permission catalog. -/
theorem c6_witness :
    get_user_permissions
        { sampleUser with is_superuser := true, roles := [] }
        [{ id := 1, name := "v".toList, code := "products.view".toList, module := "products".toList },
         { id := 2, name := "c".toList, code := "products.create".toList, module := "products".toList }]
      = (["products.view".toList, "products.create".toList] : List Chars).toFinset := by
  have h := (c6_permission_resolution { sampleUser with is_superuser := true, roles := [] }
    [{ id := 1, name := "v".toList, code := "products.view".toList, module := "products".toList },
     { id := 2, name := "c".toList, code := "products.create".toList, module := "products".toList }]).1
    rfl []
  simpa using h

/-- C7: logout-all, invoked with a valid session of a user, deactivates every
session of that user and leaves every session of any other user — position by
position — unchanged. -/
theorem c7_logout_all_frame (db : AuthDB) (token : Chars) (sess : UserSession)
    (hfind : db.sessions.find? (activeSessionFilter token) = some sess) :
    (logout_all_sessions db token).1 = LogoutAllResult.success sess.user_id ∧
    (∀ s ∈ (logout_all_sessions db token).2.sessions,
      s.user_id = sess.user_id → s.is_active = false) ∧
    (logout_all_sessions db token).2.sessions.length = db.sessions.length ∧
    (∀ (i : Nat) (t : UserSession), db.sessions[i]? = some t → t.user_id ≠ sess.user_id →
      (logout_all_sessions db token).2.sessions[i]? = some t) := by
  have hrun : (logout_all_sessions db token).2.sessions
      = db.sessions.map (fun s =>
          if s.user_id == sess.user_id then { s with is_active := false } else s) := by
    unfold logout_all_sessions
    rw [hfind]
    simp [log_audit]
  have hres : (logout_all_sessions db token).1 = LogoutAllResult.success sess.user_id := by
    unfold logout_all_sessions
    rw [hfind]
  refine ⟨hres, ?_, ?_, ?_⟩
  · intro s hs hsu
    rw [hrun, List.mem_map] at hs
    obtain ⟨x, hx, rfl⟩ := hs
    by_cases hxu : x.user_id == sess.user_id
    · simp [hxu]
    · rw [if_neg hxu] at hsu ⊢
      exact absurd (by simpa using hsu) (by simpa using hxu)
  · rw [hrun, List.length_map]
  · intro i t hit htu
    rw [hrun, List.getElem?_map, hit]
    have ht : (if t.user_id == sess.user_id then { t with is_active := false } else t) = t :=
      if_neg (by simpa using htu)
    simp [ht]
    exact fun h => absurd h htu

/-- C7 witness: the theorem applied to `sampleDB` and `sampleSession`. -/
theorem c7_witness :
    (logout_all_sessions sampleDB "tok1".toList).1 = LogoutAllResult.success 1 :=
  (c7_logout_all_frame sampleDB "tok1".toList sampleSession (by decide)).1

/-- C8: round-trip — verifying a plaintext against its own freshly produced
stored form succeeds, and (when the digest is collision-free on the salted
inputs) verifying a different plaintext against that stored form fails; both
for the login-side verifier of `auth.py` and the migration verifier of
`security.py`. -/
theorem c8_hash_verify_roundtrip (sha256 : Chars → Chars) (bcryptVerify : Chars → Chars → Bool)
    (p p2 salt : Chars) (hsalt : '$' ∉ salt) (hne : salt ≠ [])
    (hinj : Function.Injective sha256) (hpp : p ≠ p2) :
    verify_password sha256 p (hash_password sha256 p salt) = true ∧
    verify_password sha256 p (hash_password sha256 p2 salt) = false ∧
    Security.verify_password sha256 bcryptVerify p (hash_password sha256 p salt) = true ∧
    Security.verify_password sha256 bcryptVerify p (hash_password sha256 p2 salt) = false := by
  have hsplit : ∀ q : Chars,
      splitFirst '$' (hash_password sha256 q salt) = some (salt, sha256 (salt ++ q)) :=
    fun q => splitFirst_append salt (sha256 (salt ++ q)) hsalt
  have hdiff : (sha256 (salt ++ p) == sha256 (salt ++ p2)) = false := by
    rw [beq_eq_false_iff_ne]
    intro he
    exact hpp (List.append_cancel_left (hinj he))
  have hvt : verify_password sha256 p (hash_password sha256 p salt) = true := by
    rw [verify_password, hsplit p]
    simp
  have hvf : verify_password sha256 p (hash_password sha256 p2 salt) = false := by
    rw [verify_password, hsplit p2]
    exact hdiff
  have hnb : ∀ q : Chars, Security.is_bcrypt_hash (hash_password sha256 q salt) = false := by
    intro q
    obtain ⟨c, cs, rfl⟩ : ∃ c cs, salt = c :: cs := by
      cases salt with
      | nil => exact absurd rfl hne
      | cons c cs => exact ⟨c, cs, rfl⟩
    exact is_bcrypt_hash_cons_of_ne _ (fun hc => hsalt (by simp [hc]))
  have hsec : ∀ q : Chars,
      Security.verify_password sha256 bcryptVerify q (hash_password sha256 p2 salt)
        = verify_password sha256 q (hash_password sha256 p2 salt) := by
    intro q
    rw [Security.verify_password, verify_password, if_neg, hnb p2]
    · simp [hsplit p2]
    · simp [hash_password]
  have hsec1 : Security.verify_password sha256 bcryptVerify p (hash_password sha256 p salt)
      = verify_password sha256 p (hash_password sha256 p salt) := by
    rw [Security.verify_password, verify_password, if_neg, hnb p]
    · simp [hsplit p]
    · simp [hash_password]
  exact ⟨hvt, hvf, hsec1.trans hvt, (hsec p).trans hvf⟩

/-- C8 witness: the theorem applied to the identity digest (injective), salt
`"ab"` and the distinct plaintexts `"x"` and `"y"`. -/
theorem c8_witness :
    verify_password sampleSha "x".toList (hash_password sampleSha "x".toList "ab".toList) = true ∧
    verify_password sampleSha "x".toList (hash_password sampleSha "y".toList "ab".toList) = false :=
  ⟨(c8_hash_verify_roundtrip sampleSha (fun _ _ => false) "x".toList "y".toList "ab".toList
      (by decide) (by decide) (fun a b h => h) (by decide)).1,
   (c8_hash_verify_roundtrip sampleSha (fun _ _ => false) "x".toList "y".toList "ab".toList
      (by decide) (by decide) (fun a b h => h) (by decide)).2.1⟩

/-- C1: while a user's lockout timestamp lies in the future, every login
attempt resolving to that user fails with the locked-account error with no
state change and without the password being verified — the outcome is the
same for every submitted password, the correct one included; the failed
attempt that brings the counter to the threshold of 5 sets the lockout
timestamp to now + 15 minutes; and once the timestamp is no longer in the
future the locked-account error is no longer produced. -/
theorem c1_lockout_policy (sha256 : Chars → Chars) (db : AuthDB) (req : LoginRequest)
    (now : Nat) (tok : Chars) (u : User) (t : Nat)
    (hfind : db.users.find? (loginFilter req.username) = some u)
    (hlock : u.locked_until = some t) (hfut : now < t) :
    login sha256 db req now tok = (LoginResult.accountLocked, db) ∧
    (∀ p : Chars, login sha256 db { req with password := p } now tok
        = (LoginResult.accountLocked, db)) ∧
    (∀ (db2 : AuthDB) (req2 : LoginRequest) (now2 : Nat) (tok2 : Chars) (u2 : User),
      db2.users.find? (loginFilter req2.username) = some u2 →
      lockedActive u2.locked_until now2 = false →
      u2.is_active = true →
      verify_password sha256 req2.password u2.password_hash = false →
      5 ≤ u2.failed_login_attempts + 1 →
      ∃ u3 : User,
        (login sha256 db2 req2 now2 tok2).2.users.find? (loginFilter req2.username) = some u3 ∧
        u3.locked_until = some (now2 + 15 * 60) ∧
        u3.failed_login_attempts = u2.failed_login_attempts + 1) ∧
    (∀ (db3 : AuthDB) (req3 : LoginRequest) (now3 : Nat) (tok3 : Chars) (u3 : User) (t3 : Nat),
      db3.users.find? (loginFilter req3.username) = some u3 →
      u3.locked_until = some t3 → t3 ≤ now3 →
      (login sha256 db3 req3 now3 tok3).1 ≠ LoginResult.accountLocked) := by
  have hla : lockedActive u.locked_until now = true := by
    rw [hlock]
    simpa [lockedActive] using hfut
  refine ⟨?_, fun p => ?_, ?_, ?_⟩
  · unfold login
    rw [hfind]
    simp [hla]
  · unfold login
    rw [show ({ req with password := p } : LoginRequest).username = req.username from rfl, hfind]
    simp [hla]
  · intro db2 req2 now2 tok2 u2 hf2 hnl hact hver hcnt
    have hflt : loginFilter req2.username u2 = true := List.find?_some hf2
    have hupd : (login sha256 db2 req2 now2 tok2).2.users
        = updateFirst (loginFilter req2.username)
            (fun _ =>
              { u2 with
                failed_login_attempts := u2.failed_login_attempts + 1,
                locked_until := some (now2 + 15 * 60) })
            db2.users := by
      unfold login
      rw [hf2]
      simp [hnl, hact, hver, hcnt, log_audit]
    refine ⟨{ u2 with
        failed_login_attempts := u2.failed_login_attempts + 1,
        locked_until := some (now2 + 15 * 60) }, ?_, rfl, rfl⟩
    rw [hupd]
    exact find?_updateFirst _ hf2 (by simpa [loginFilter] using hflt)
  · intro db3 req3 now3 tok3 u3 t3 hf3 hl3 hle
    have hnl : lockedActive u3.locked_until now3 = false := by
      rw [hl3]
      simp only [lockedActive, decide_eq_false_iff_not]
      omega
    unfold login
    rw [hf3]
    cases hact : u3.is_active with
    | false => simp [hnl, hact]
    | true =>
      cases hver : verify_password sha256 req3.password u3.password_hash with
      | false => simp [hnl, hact, hver]
      | true => simp [hnl, hact, hver]

/-- C1 witness: the locked user at time 500 (lockout until 1000) with the
*correct* password is still rejected with the locked-account error, state
unchanged. -/
theorem c1_witness :
    login sampleSha sampleLockedDB
        { username := "alice".toList, password := "oldpassword1".toList, remember_me := false }
        500 "t2".toList
      = (LoginResult.accountLocked, sampleLockedDB) :=
  (c1_lockout_policy sampleSha sampleLockedDB
      { username := "alice".toList, password := "oldpassword1".toList, remember_me := false }
      500 "t2".toList sampleLockedUser 1000 (by decide) (by decide) (by decide)).1

/-- Login outcomes depend on the login identifier only through which user
rows it matches. -/
theorem login_filter_congr (sha256 : Chars → Chars) (db : AuthDB) (q1 q2 p : Chars)
    (rm : Bool) (now : Nat) (tok : Chars)
    (h : ∀ x ∈ db.users, loginFilter q1 x = loginFilter q2 x) :
    login sha256 db { username := q1, password := p, remember_me := rm } now tok
      = login sha256 db { username := q2, password := p, remember_me := rm } now tok := by
  have hup : ∀ f : User → User,
      updateFirst (loginFilter q1) f db.users = updateFirst (loginFilter q2) f db.users :=
    fun f => updateFirst_congr f db.users h
  unfold login
  simp only [find?_congr db.users h, hup]

/-- C10: the login endpoint matches the submitted identifier against both the
stored username and the stored email, so when the user's username and email
each identify them uniquely, logging in with the email behaves identically —
same outcome, same state — to logging in with the username. -/
theorem c10_login_username_or_email (sha256 : Chars → Chars) (db : AuthDB) (u : User)
    (p : Chars) (rm : Bool) (now : Nat) (tok : Chars)
    (huniq : ∀ v ∈ db.users,
      (v.username = u.username ∨ v.email = u.username ∨
       v.username = u.email ∨ v.email = u.email) → v = u) :
    login sha256 db { username := u.username, password := p, remember_me := rm } now tok
      = login sha256 db { username := u.email, password := p, remember_me := rm } now tok := by
  apply login_filter_congr
  intro x hx
  by_cases hxu : x = u
  · subst hxu
    simp [loginFilter]
  · have h1 : loginFilter u.username x = false := by
      rw [loginFilter]
      simp only [Bool.or_eq_false_iff, beq_eq_false_iff_ne]
      exact ⟨fun he => hxu (huniq x hx (Or.inl he)),
             fun he => hxu (huniq x hx (Or.inr (Or.inl he)))⟩
    have h2 : loginFilter u.email x = false := by
      rw [loginFilter]
      simp only [Bool.or_eq_false_iff, beq_eq_false_iff_ne]
      exact ⟨fun he => hxu (huniq x hx (Or.inr (Or.inr (Or.inl he)))),
             fun he => hxu (huniq x hx (Or.inr (Or.inr (Or.inr he))))⟩
    rw [h1, h2]

/-- C10 witness: in `sampleDB`, logging in as `"alice"` and as
`"alice@example.com"` (correct password) produce identical results. -/
theorem c10_witness :
    login sampleSha sampleDB
        { username := sampleUser.username, password := "oldpassword1".toList, remember_me := false }
        10 "t3".toList
      = login sampleSha sampleDB
        { username := sampleUser.email, password := "oldpassword1".toList, remember_me := false }
        10 "t3".toList :=
  c10_login_username_or_email sampleSha sampleDB sampleUser "oldpassword1".toList false 10
    "t3".toList (by decide)

/-- C2 (divergence evidence): `auth.py hash_password` — the function used by
password reset and authenticated password change — emits exactly the legacy
salt-plus-fast-hash concatenation: its output is rejected by
`security.is_bcrypt_hash` and parses as `salt$sha256(salt+password)`, and a
successful authenticated password change persists that form as the user's
stored hash. -/
theorem c2_change_password_stores_legacy_form (sha256 : Chars → Chars) (salt pw : Chars)
    (hne : salt ≠ []) (hds : '$' ∉ salt) :
    Security.is_bcrypt_hash (hash_password sha256 pw salt) = false ∧
    splitFirst '$' (hash_password sha256 pw salt) = some (salt, sha256 (salt ++ pw)) ∧
    (∀ (db : AuthDB) (tok cur new : Chars) (now : Nat) (sess : UserSession) (user : User),
      db.sessions.find? (activeSessionFilter tok) = some sess →
      db.users.find? (fun u => u.id == sess.user_id) = some user →
      verify_password sha256 cur user.password_hash = true →
      ¬ new.length < 8 →
      (change_password sha256 db tok cur new now salt).1 = ChangePasswordResult.success ∧
      (change_password sha256 db tok cur new now salt).2.users.find?
          (fun u => u.id == sess.user_id)
        = some { user with
            password_hash := hash_password sha256 new salt,
            password_changed_at := some now,
            must_change_password := false }) := by
  have hnb : Security.is_bcrypt_hash (hash_password sha256 pw salt) = false := by
    obtain ⟨c, cs, rfl⟩ : ∃ c cs, salt = c :: cs := by
      cases salt with
      | nil => exact absurd rfl hne
      | cons c cs => exact ⟨c, cs, rfl⟩
    exact is_bcrypt_hash_cons_of_ne _ (fun hc => hds (by simp [hc]))
  refine ⟨hnb, splitFirst_append salt (sha256 (salt ++ pw)) hds, ?_⟩
  intro db tok cur new now sess user hsess huser hver hlen
  have hid := List.find?_some huser
  have hrun : change_password sha256 db tok cur new now salt
      = (ChangePasswordResult.success,
         log_audit
           { db with
             users := updateFirst (fun u => u.id == sess.user_id)
               (fun _ =>
                 { user with
                   password_hash := hash_password sha256 new salt,
                   password_changed_at := some now,
                   must_change_password := false })
               db.users }
           (some user.id) "change_password" "auth" "success" none) := by
    unfold change_password
    rw [hsess]
    simp [huser, hver, hlen]
  refine ⟨by rw [hrun], ?_⟩
  rw [hrun]
  simp only [log_audit]
  exact find?_updateFirst _ huser (by simpa using hid)

/-- C2 witness: in `sampleDB` a password change to `"newpassword1"` with salt
`"cd"` stores the legacy form `cd$sha256(cd + newpassword1)`. -/
theorem c2_witness :
    (change_password sampleSha sampleDB "tok1".toList "oldpassword1".toList
        "newpassword1".toList 300 "cd".toList).2.users.find?
        (fun u => u.id == sampleSession.user_id)
      = some { sampleUser with
          password_hash := hash_password sampleSha "newpassword1".toList "cd".toList,
          password_changed_at := some 300, must_change_password := false } :=
  ((c2_change_password_stores_legacy_form sampleSha "cd".toList "newpassword1".toList
      (by decide) (by decide)).2.2 sampleDB "tok1".toList "oldpassword1".toList
      "newpassword1".toList 300 sampleSession sampleUser (by decide) (by decide)
      (by decide) (by decide)).2

/-- C4: a password-reset token is redeemable at most once — after a successful
redemption (which marks the token used and updates the password in the same
state transition) a second redemption with the same raw secret fails with the
generic invalid-or-expired error and no state change, the very same response
produced for a secret whose hash matches no stored token at all. -/
theorem c4_reset_token_single_use (sha256 : Chars → Chars) (db : AuthDB)
    (token new_pw new_pw2 salt salt2 : Chars) (now now2 : Nat)
    (prt : PasswordResetToken) (user : User)
    (htok : (pstrip token).isEmpty = false)
    (hlen : ¬ new_pw.length < 8) (hlen2 : ¬ new_pw2.length < 8)
    (hfind : db.reset_tokens.find? (resetTokenFilter (sha256 (pstrip token))) = some prt)
    (hunused : prt.used_at = none) (hfresh : ¬ prt.expires_at ≤ now)
    (huser : db.users.find? (fun u => u.id == prt.user_id) = some user)
    (hactive : user.is_active = true) :
    (reset_password sha256 db token new_pw now salt).1 = ResetPasswordResult.success ∧
    reset_password sha256 (reset_password sha256 db token new_pw now salt).2 token new_pw2
        now2 salt2
      = (ResetPasswordResult.tokenInvalidOrExpired,
         (reset_password sha256 db token new_pw now salt).2) ∧
    (∀ (db0 : AuthDB) (tok0 pw0 salt0 : Chars) (now0 : Nat),
      (pstrip tok0).isEmpty = false → ¬ pw0.length < 8 →
      db0.reset_tokens.find? (resetTokenFilter (sha256 (pstrip tok0))) = none →
      reset_password sha256 db0 tok0 pw0 now0 salt0
        = (ResetPasswordResult.tokenInvalidOrExpired, db0)) := by
  have hrun : reset_password sha256 db token new_pw now salt
      = (ResetPasswordResult.success,
         { db with
           users := updateFirst (fun u => u.id == prt.user_id)
             (fun _ =>
               { user with
                 password_hash := hash_password sha256 new_pw salt,
                 must_change_password := false,
                 password_changed_at := some now })
             db.users,
           reset_tokens := updateFirst (resetTokenFilter (sha256 (pstrip token)))
             (fun t => { t with used_at := some now }) db.reset_tokens }) := by
    unfold reset_password
    simp [htok, hlen, hfind, hunused, hfresh, huser, hactive]
  have hflt : resetTokenFilter (sha256 (pstrip token)) prt = true := List.find?_some hfind
  have hfind2 : (updateFirst (resetTokenFilter (sha256 (pstrip token)))
        (fun t => { t with used_at := some now }) db.reset_tokens).find?
        (resetTokenFilter (sha256 (pstrip token)))
      = some { prt with used_at := some now } :=
    find?_updateFirst _ hfind (by simpa [resetTokenFilter] using hflt)
  refine ⟨by rw [hrun], ?_, ?_⟩
  · rw [hrun]
    unfold reset_password
    simp [htok, hlen2, hfind2]
  · intro db0 tok0 pw0 salt0 now0 h0 h1 h2
    unfold reset_password
    simp [h0, h1, h2]

/-- C4 witness: redeeming the sample reset token succeeds once; redeeming the
same raw secret again fails with the generic invalid-or-expired error and
leaves the state unchanged. -/
theorem c4_witness :
    reset_password sampleSha
        (reset_password sampleSha sampleResetDB "raw".toList "newpassword1".toList 10
          "ef".toList).2
        "raw".toList "newpassword2".toList 11 "gh".toList
      = (ResetPasswordResult.tokenInvalidOrExpired,
         (reset_password sampleSha sampleResetDB "raw".toList "newpassword1".toList 10
           "ef".toList).2) :=
  (c4_reset_token_single_use sampleSha sampleResetDB "raw".toList "newpassword1".toList
      "newpassword2".toList "ef".toList "gh".toList 10 11
      { user_id := 1, token_hash := sampleSha "raw".toList, expires_at := 50,
        used_at := none, request_ip := none }
      sampleUser (by decide) (by decide) (by decide) (by decide) (by decide) (by decide)
      (by decide) (by decide)).2.1

/-- C3 counterexample: at time 200 the only session (`expires_at = 100`,
`is_active = true`) is expired; the middleware rejects its token with 401, yet
the change-password endpoint — an authenticated auth endpoint — still accepts
that session and succeeds, so not every session-token lookup that grants
authenticated access treats a past-expiry session as invalid. -/
theorem c3_counterexample :
    sampleSession.is_active = true ∧
    sampleSession.expires_at < 200 ∧
    authz_middleware sampleDB sampleBearerReq 200
      = AuthzOutcome.deny401 "Session expired or invalid" ∧
    (change_password sampleSha sampleDB "tok1".toList "oldpassword1".toList
        "newpassword1".toList 200 "cd".toList).1 = ChangePasswordResult.success := by
  refine ⟨by decide, by decide, by decide, by decide⟩

/-- C3 (amended): the authorization middleware and the verify endpoint treat a
session whose `expires_at` is not in the future as invalid (401) even while
`is_active` is true; the change-password endpoint's session lookup, by
contrast, checks only `is_active` and accepts an expired session. -/
theorem c3_expiry_check_scope (sha256 : Chars → Chars) (db : AuthDB) (req : HttpRequest)
    (now : Nat) (t : Chars)
    (hapi : ("/api/".toList).isPrefixOf req.path = true)
    (hopt : req.method ≠ Method.OPTIONS)
    (hpub : PUBLIC_PATH_PREFIXES.any (fun p => p.isPrefixOf req.path) = false)
    (htok : _get_bearer_token req = some t)
    (hne : t.isEmpty = false)
    (hexp : ∀ s ∈ db.sessions, s.session_token = t → s.expires_at ≤ now) :
    authz_middleware db req now = AuthzOutcome.deny401 "Session expired or invalid" ∧
    (∀ (token : Chars) (now2 : Nat),
      (∀ s ∈ db.sessions, s.session_token = token → s.expires_at ≤ now2) →
      (verify_token db token now2).1 = false) ∧
    (∀ (db2 : AuthDB) (tok2 cur new salt : Chars) (now2 : Nat) (sess : UserSession)
        (user : User),
      db2.sessions.find? (activeSessionFilter tok2) = some sess →
      sess.expires_at ≤ now2 →
      db2.users.find? (fun u => u.id == sess.user_id) = some user →
      verify_password sha256 cur user.password_hash = true →
      ¬ new.length < 8 →
      (change_password sha256 db2 tok2 cur new now2 salt).1
        = ChangePasswordResult.success) := by
  have hapi2 : ['/', 'a', 'p', 'i', '/'] <+: req.path := by simpa using hapi
  refine ⟨?_, ?_, ?_⟩
  · unfold authz_middleware
    rw [htok]
    simp [hapi2, hopt, hpub, hne, find?_validSessionFilter_none db.sessions t now hexp]
  · intro token now2 h
    unfold verify_token
    cases he : token.isEmpty with
    | false => simp [he, find?_validSessionFilter_none db.sessions token now2 h]
    | true => simp [he]
  · intro db2 tok2 cur new salt now2 sess user hsess _hexp2 huser hver hlen
    unfold change_password
    rw [hsess]
    simp [huser, hver, hlen]

/-- C3 witness: the amended theorem applied at time 200 to `sampleDB`, whose
only session expired at 100. -/
theorem c3_witness :
    authz_middleware sampleDB sampleBearerReq 200
      = AuthzOutcome.deny401 "Session expired or invalid" :=
  (c3_expiry_check_scope sampleSha sampleDB sampleBearerReq 200 "tok1".toList
      (by decide) (by decide) (by decide) (by decide) (by decide) (by decide)).1

/-- C9 counterexample: a protected request with no `Authorization` header but
with a currently valid session token in the `session_token` cookie is rejected
with 401 by the middleware — it consults no cookie — even though the
dependency-level extractor does recover the token from the cookie. -/
theorem c9_counterexample :
    _get_bearer_token sampleCookieReq = none ∧
    authz_middleware sampleDB sampleCookieReq 50 = AuthzOutcome.deny401 "Not authenticated" ∧
    get_token_from_request sampleCookieReq = some "tok1".toList ∧
    sampleDB.sessions.find? (validSessionFilter "tok1".toList 50) = some sampleSession := by
  refine ⟨by decide, by decide, by decide, by decide⟩

/-- C9 (amended): the middleware reads the bearer token only from the
`Authorization` header and rejects a protected request without one (401)
regardless of cookies; the router-level helper `get_token_from_request` is the
function that falls back to the `session_token` cookie, and it agrees with the
header extraction whenever a bearer header is present. -/
theorem c9_token_extraction_scope (db : AuthDB) (req : HttpRequest) (now : Nat)
    (hapi : ("/api/".toList).isPrefixOf req.path = true)
    (hopt : req.method ≠ Method.OPTIONS)
    (hpub : PUBLIC_PATH_PREFIXES.any (fun p => p.isPrefixOf req.path) = false)
    (hnob : _get_bearer_token req = none) :
    authz_middleware db req now = AuthzOutcome.deny401 "Not authenticated" ∧
    get_token_from_request req = cookies_get req.cookies sessionCookieName ∧
    (∀ (r : HttpRequest) (tk : Chars),
      _get_bearer_token r = some tk → get_token_from_request r = some tk) := by
  have hapi2 : ['/', 'a', 'p', 'i', '/'] <+: req.path := by simpa using hapi
  refine ⟨?_, ?_, ?_⟩
  · unfold authz_middleware
    rw [hnob]
    simp [hapi2, hopt, hpub]
  · have hpre : bearerMarker.isPrefixOf req.authorization = false := by
      cases hp : bearerMarker.isPrefixOf req.authorization with
      | false => rfl
      | true =>
        unfold _get_bearer_token at hnob
        rw [hp] at hnob
        simp at hnob
    unfold get_token_from_request
    simp [hpre]
  · intro r tk htk
    unfold _get_bearer_token at htk
    unfold get_token_from_request
    by_cases hp : bearerMarker.isPrefixOf r.authorization
    · rw [if_pos hp] at htk ⊢
      exact htk
    · rw [if_neg hp] at htk
      cases htk

/-- C9 witness: the amended theorem applied to the cookie-only request against
`sampleDB`. -/
theorem c9_witness :
    authz_middleware sampleDB sampleCookieReq 50 = AuthzOutcome.deny401 "Not authenticated" :=
  (c9_token_extraction_scope sampleDB sampleCookieReq 50 (by decide) (by decide)
      (by decide) (by decide)).1

end ERPAuth
